import Mathlib

/-!
Verification development for the Fyrox deferred-rendering G-buffer pass
(`fyrox-impl/src/renderer/gbuffer/mod.rs`).

The Rust code is shallowly embedded: `f32` scalars are modelled as
rationals, GPU resources as integer identifiers allocated sequentially by
the graphics server, and the per-frame `GBuffer::fill` orchestration as a
pure function that returns the list of GPU-facing events it performed
(clear, geometry render, occlusion-query traffic, decal draws) together
with its `Result`.  A `panic!`/`unwrap` failure is modelled by an absent
outcome (`none`), while `Result::Err` propagation is modelled by
`Except.error`.
-/

namespace Fyrox

/-- A rational-valued 3-component vector (models `Vector3<f32>`). -/
structure Vector3 where
  x : ℚ
  y : ℚ
  z : ℚ
deriving DecidableEq, Repr

/-- A rational-valued 2-component vector (models `Vector2<f32>`). -/
structure Vector2 where
  x : ℚ
  y : ℚ
deriving DecidableEq, Repr

/-- One row of a 4x4 matrix. -/
structure Vec4 where
  x : ℚ
  y : ℚ
  z : ℚ
  w : ℚ
deriving DecidableEq, Repr

/-- A 4x4 rational matrix in row-major layout (models `Matrix4<f32>`). -/
structure Matrix4 where
  r0 : Vec4
  r1 : Vec4
  r2 : Vec4
  r3 : Vec4
deriving DecidableEq, Repr

namespace Matrix4

/-- Dot product of two 4-vectors. -/
def dot (a b : Vec4) : ℚ :=
  a.x * b.x + a.y * b.y + a.z * b.z + a.w * b.w

/-- Column `0` of a matrix, as a `Vec4`. -/
def col0 (m : Matrix4) : Vec4 := ⟨m.r0.x, m.r1.x, m.r2.x, m.r3.x⟩

/-- Column `1` of a matrix, as a `Vec4`. -/
def col1 (m : Matrix4) : Vec4 := ⟨m.r0.y, m.r1.y, m.r2.y, m.r3.y⟩

/-- Column `2` of a matrix, as a `Vec4`. -/
def col2 (m : Matrix4) : Vec4 := ⟨m.r0.z, m.r1.z, m.r2.z, m.r3.z⟩

/-- Column `3` of a matrix, as a `Vec4`. -/
def col3 (m : Matrix4) : Vec4 := ⟨m.r0.w, m.r1.w, m.r2.w, m.r3.w⟩

/-- Matrix multiplication. -/
def mul (m n : Matrix4) : Matrix4 :=
  ⟨⟨dot m.r0 (col0 n), dot m.r0 (col1 n), dot m.r0 (col2 n), dot m.r0 (col3 n)⟩,
   ⟨dot m.r1 (col0 n), dot m.r1 (col1 n), dot m.r1 (col2 n), dot m.r1 (col3 n)⟩,
   ⟨dot m.r2 (col0 n), dot m.r2 (col1 n), dot m.r2 (col2 n), dot m.r2 (col3 n)⟩,
   ⟨dot m.r3 (col0 n), dot m.r3 (col1 n), dot m.r3 (col2 n), dot m.r3 (col3 n)⟩⟩

instance : Mul Matrix4 := ⟨mul⟩

/-- Determinant of a 3x3 matrix given entry by entry. -/
def det3 (a b c d e f g h i : ℚ) : ℚ :=
  a * (e * i - f * h) - b * (d * i - f * g) + c * (d * h - e * g)

/-- Determinant, by cofactor expansion along the first row. -/
def det (m : Matrix4) : ℚ :=
  m.r0.x * det3 m.r1.y m.r1.z m.r1.w m.r2.y m.r2.z m.r2.w m.r3.y m.r3.z m.r3.w
  - m.r0.y * det3 m.r1.x m.r1.z m.r1.w m.r2.x m.r2.z m.r2.w m.r3.x m.r3.z m.r3.w
  + m.r0.z * det3 m.r1.x m.r1.y m.r1.w m.r2.x m.r2.y m.r2.w m.r3.x m.r3.y m.r3.w
  - m.r0.w * det3 m.r1.x m.r1.y m.r1.z m.r2.x m.r2.y m.r2.z m.r3.x m.r3.y m.r3.z

/-- The three components of a row that remain after deleting column `j`. -/
def Vec4.del (v : Vec4) (j : Fin 4) : ℚ × ℚ × ℚ :=
  match j with
  | 0 => (v.y, v.z, v.w)
  | 1 => (v.x, v.z, v.w)
  | 2 => (v.x, v.y, v.w)
  | 3 => (v.x, v.y, v.z)

/-- Determinant of the 3x3 matrix with the given rows. -/
def det3t (a b c : ℚ × ℚ × ℚ) : ℚ :=
  det3 a.1 a.2.1 a.2.2 b.1 b.2.1 b.2.2 c.1 c.2.1 c.2.2

/-- The three rows that remain after deleting row `i`. -/
def rowsWithout (m : Matrix4) (i : Fin 4) : Vec4 × Vec4 × Vec4 :=
  match i with
  | 0 => (m.r1, m.r2, m.r3)
  | 1 => (m.r0, m.r2, m.r3)
  | 2 => (m.r0, m.r1, m.r3)
  | 3 => (m.r0, m.r1, m.r2)

/-- Signed cofactor of the entry at row `i`, column `j`. -/
def cof (m : Matrix4) (i j : Fin 4) : ℚ :=
  let rs := m.rowsWithout i
  let s : ℚ := if (i.val + j.val) % 2 = 0 then 1 else -1
  s * det3t (Vec4.del rs.1 j) (Vec4.del rs.2.1 j) (Vec4.del rs.2.2 j)

/-- Adjugate (transpose of the cofactor matrix). -/
def adjugate (m : Matrix4) : Matrix4 :=
  ⟨⟨m.cof 0 0, m.cof 1 0, m.cof 2 0, m.cof 3 0⟩,
   ⟨m.cof 0 1, m.cof 1 1, m.cof 2 1, m.cof 3 1⟩,
   ⟨m.cof 0 2, m.cof 1 2, m.cof 2 2, m.cof 3 2⟩,
   ⟨m.cof 0 3, m.cof 1 3, m.cof 2 3, m.cof 3 3⟩⟩

/-- Multiply every entry by a scalar. -/
def smul (q : ℚ) (m : Matrix4) : Matrix4 :=
  ⟨⟨q * m.r0.x, q * m.r0.y, q * m.r0.z, q * m.r0.w⟩,
   ⟨q * m.r1.x, q * m.r1.y, q * m.r1.z, q * m.r1.w⟩,
   ⟨q * m.r2.x, q * m.r2.y, q * m.r2.z, q * m.r2.w⟩,
   ⟨q * m.r3.x, q * m.r3.y, q * m.r3.z, q * m.r3.w⟩⟩

/-- Inverse via the adjugate formula (meaningful only when `det ≠ 0`). -/
def inverse (m : Matrix4) : Matrix4 :=
  smul m.det⁻¹ m.adjugate

/-- Models nalgebra `Matrix4::try_inverse`: `None` exactly when the matrix
is singular, otherwise the inverse. -/
def tryInverse (m : Matrix4) : Option Matrix4 :=
  if m.det = 0 then none else some m.inverse

/-- The identity matrix. -/
def identity : Matrix4 :=
  ⟨⟨1, 0, 0, 0⟩, ⟨0, 1, 0, 0⟩, ⟨0, 0, 1, 0⟩, ⟨0, 0, 0, 1⟩⟩

/-- The all-zero matrix: nalgebra `Matrix4::<f32>::default()`. -/
def zero : Matrix4 :=
  ⟨⟨0, 0, 0, 0⟩, ⟨0, 0, 0, 0⟩, ⟨0, 0, 0, 0⟩, ⟨0, 0, 0, 0⟩⟩

/-- `Matrix4Ext::side` from fyrox-core (first column, the column-major
flat entries `self[0..3]`). -/
def side (m : Matrix4) : Vector3 := ⟨m.r0.x, m.r1.x, m.r2.x⟩

/-- `Matrix4Ext::up` from fyrox-core (second column, the column-major
flat entries `self[4..7]`). -/
def up (m : Matrix4) : Vector3 := ⟨m.r0.y, m.r1.y, m.r2.y⟩

end Matrix4

/-! ## Graphics-framework types (`fyrox-graphics`) -/

/-- Models `FrameworkError` from the graphics framework.  Only the shape
matters here: a tagged error value propagated through `Result`. -/
inductive FrameworkError where
  | custom (msg : String)
deriving DecidableEq, Repr

/-- An RGBA color with 8-bit channels (models `Color::from_rgba`). -/
structure Color where
  r : Nat
  g : Nat
  b : Nat
  a : Nat
deriving DecidableEq, Repr

/-- An integer rectangle (models `Rect<i32>`). -/
structure Rect where
  x : Int
  y : Int
  w : Int
  h : Int
deriving DecidableEq, Repr

/-- GPU texture identity.  The graphics server allocates these
sequentially; equality of identifiers models sharing of the same
underlying `Rc<RefCell<dyn GpuTexture>>`. -/
abbrev TextureId := Nat

/-- GPU geometry-buffer identity. -/
abbrev GeometryId := Nat

/-- Shader-program identity. -/
abbrev ShaderId := Nat

/-- `AttachmentKind` of a framebuffer attachment. -/
inductive AttachmentKind where
  | Color
  | DepthStencil
  | Depth
deriving DecidableEq, Repr

/-- A framebuffer attachment: a kind plus the attached texture. -/
structure Attachment where
  kind : AttachmentKind
  texture : TextureId
deriving DecidableEq, Repr

/-- A framebuffer object: an optional depth attachment plus color
attachments, exactly as passed to `create_frame_buffer`. -/
structure FrameBufferDesc where
  depth_attachment : Option Attachment
  color_attachments : List Attachment
deriving DecidableEq, Repr

/-- Blend factors (the subset of `BlendFactor` used here). -/
inductive BlendFactor where
  | Zero
  | One
  | SrcAlpha
  | OneMinusSrcAlpha
deriving DecidableEq, Repr

/-- `BlendFunc`: separate RGB and alpha source/destination factors. -/
structure BlendFunc where
  sfactor : BlendFactor
  dfactor : BlendFactor
  alpha_sfactor : BlendFactor
  alpha_dfactor : BlendFactor
deriving DecidableEq, Repr

/-- `BlendFunc::new(sfactor, dfactor)` uses the same factors for the
alpha channel. -/
def BlendFunc.new (s d : BlendFactor) : BlendFunc := ⟨s, d, s, d⟩

/-- Blend equation modes; `Add` is the default. -/
inductive BlendEquation where
  | Add
deriving DecidableEq, Repr

instance : Inhabited BlendEquation := ⟨BlendEquation.Add⟩

/-- `BlendParameters`: a blend function plus the (defaulted) equation. -/
structure BlendParameters where
  func : BlendFunc
  equation : BlendEquation
deriving DecidableEq, Repr

/-- Per-channel color write mask; defaults to all-enabled. -/
structure ColorMask where
  red : Bool
  green : Bool
  blue : Bool
  alpha : Bool
deriving DecidableEq, Repr

instance : Inhabited ColorMask := ⟨⟨true, true, true, true⟩⟩

/-- Depth comparison functions (the subset that matters here; the decal
pass passes `None`, i.e. depth test disabled). -/
inductive CompareFunc where
  | Less
  | LessOrEqual
  | Always
deriving DecidableEq, Repr

/-- Stencil operation description; only its defaulted presence matters. -/
structure StencilOp where
  write_mask : Nat
deriving DecidableEq, Repr

instance : Inhabited StencilOp := ⟨⟨0xFFFFFFFF⟩⟩

/-- `DrawParameters` as passed to `FrameBuffer::draw`. -/
structure DrawParameters where
  cull_face : Option Unit
  color_write : ColorMask
  depth_write : Bool
  stencil_test : Option Unit
  depth_test : Option CompareFunc
  blend : Option BlendParameters
  stencil_op : StencilOp
  scissor_box : Option Rect
deriving DecidableEq, Repr

/-- Accumulated render-pass statistics.  The source counts draw calls
and triangles; triangle counts are carried per draw by the backend
model, so a draw-call counter captures the additive accumulation. -/
structure RenderPassStatistics where
  draw_calls : Nat
deriving DecidableEq, Repr

instance : Add RenderPassStatistics := ⟨fun a b => ⟨a.draw_calls + b.draw_calls⟩⟩

/-! ## Scene types -/

/-- Scene-graph node handle (models `Handle<Node>`). -/
abbrev Handle := Nat

/-- Texture resource reference held by a decal (models
`Option<TextureResource>` on the node; `none` is an unset slot). -/
abbrev TextureRef := Nat

/-- A decal node (`scene::decal::Decal`): world transform, optional
diffuse/normal texture references, color and layer tag.  The numeric
sRGB-to-linear conversion applied to `color` when filling the uniform
buffer is an `f32` power function and is not modelled; the uniform
record carries the node's color. -/
structure Decal where
  global_transform : Matrix4
  diffuse_texture : Option TextureRef
  normal_texture : Option TextureRef
  color : Color
  layer : Nat
deriving DecidableEq, Repr

/-- A scene node, as far as this pass is concerned: either a decal or
some other node kind (`cast::<Decal>` fails on the latter). -/
inductive Node where
  | decal (d : Decal)
  | other
deriving DecidableEq, Repr

/-- `node.cast::<Decal>()`. -/
def Node.castDecal : Node → Option Decal
  | Node.decal d => some d
  | Node.other => none

/-- The scene graph: `linear_iter` yields the nodes in this order. -/
structure Graph where
  nodes : List Node
deriving DecidableEq, Repr

/-- The decal nodes of the graph, in scene iteration order (models
`graph.linear_iter().filter_map(|n| n.cast::<Decal>())`). -/
def Graph.decals (g : Graph) : List Decal :=
  g.nodes.filterMap Node.castDecal

/-- Camera projection parameters (`Projection::z_near/z_far`). -/
structure Projection where
  z_near : ℚ
  z_far : ℚ
deriving DecidableEq, Repr

/-- The camera state consumed by the pass (`scene::camera::Camera`). -/
structure Camera where
  view_matrix : Matrix4
  projection_matrix : Matrix4
  global_position : Vector3
  projection : Projection
deriving DecidableEq, Repr

/-- `Camera::view_projection_matrix`: `projection_matrix * view_matrix`. -/
def Camera.view_projection_matrix (c : Camera) : Matrix4 :=
  c.projection_matrix * c.view_matrix

/-- `Camera::inv_view_matrix`: `self.view_matrix.try_inverse()`. -/
def Camera.inv_view_matrix (c : Camera) : Option Matrix4 :=
  c.view_matrix.tryInverse

/-! ## Occlusion tester

The occlusion tester lives in `renderer/occlusion` which is not part of
the sources under review; its state and operations are modelled from the
spec (sections 3 and 4.2). -/

/-- Key of a spatial grid cell. -/
abbrev GridKey := Int × Int × Int

/-- Modelled from the spec: a grid cell caches, per object handle, the
visibility bit produced by the last resolved query batch; objects with
no recorded bit are treated as visible (fail-open). -/
structure CellVisibility where
  entries : List (Handle × Bool)
deriving DecidableEq, Repr

/-- Modelled from the spec: `is_visible` returns the cached bit for the
handle, and `true` (fail-open) when the cell has no entry for it. -/
def CellVisibility.is_visible (c : CellVisibility) (h : Handle) : Bool :=
  match c.entries.find? (fun e => e.1 == h) with
  | some e => e.2
  | none => true

/-- Modelled from the spec: a spatial grid partitioning the world into
cells of side `cell_size`, caching a `CellVisibility` per queried cell. -/
structure GridCache where
  cell_size : ℚ
  cells : List (GridKey × CellVisibility)
deriving DecidableEq, Repr

/-- Modelled from the spec: the grid key of the cell containing a point. -/
def GridCache.posKey (g : GridCache) (p : Vector3) : GridKey :=
  (⌊p.x / g.cell_size⌋, ⌊p.y / g.cell_size⌋, ⌊p.z / g.cell_size⌋)

/-- Modelled from the spec: `cell(position)` looks up the grid cell
containing the point; `none` when no cell has been queried there yet. -/
def GridCache.cell (g : GridCache) (p : Vector3) : Option CellVisibility :=
  (g.cells.find? (fun c => decide (c.1 = g.posKey p))).map (fun c => c.2)

/-- Set (or insert) the visibility bit for a handle within a cell. -/
def CellVisibility.record (c : CellVisibility) (h : Handle) (v : Bool) : CellVisibility :=
  ⟨(h, v) :: c.entries.filter (fun e => e.1 != h)⟩

/-- Insert one resolved query result into the grid. -/
def GridCache.record (g : GridCache) (k : GridKey) (h : Handle) (v : Bool) : GridCache :=
  match g.cells.find? (fun c => decide (c.1 = k)) with
  | some cell =>
      ⟨g.cell_size,
       (k, cell.2.record h v) :: g.cells.filter (fun c => decide (c.1 ≠ k))⟩
  | none => ⟨g.cell_size, (k, CellVisibility.record ⟨[]⟩ h v) :: g.cells⟩

/-- Modelled from the spec: the occlusion tester owns the grid cache and
a pending set of issued-but-unconsumed query results. -/
structure OcclusionTester where
  grid_cache : GridCache
  pending : List (GridKey × Handle × Bool)
deriving DecidableEq, Repr

/-- Modelled from the spec: `try_query_visibility_results` polls the
resolved queries and folds each result into its cell's visibility map;
non-blocking, leaves nothing else changed. -/
def OcclusionTester.try_query_visibility_results (t : OcclusionTester) : OcclusionTester :=
  ⟨t.pending.foldl (fun gc r => gc.record r.1 r.2.1 r.2.2) t.grid_cache, []⟩

/-! ## Draw batches -/

/-- Render path tag of a batch (`scene::mesh::RenderPath`). -/
inductive RenderPath where
  | Deferred
  | Forward
deriving DecidableEq, Repr

/-- Per-instance data as consulted by the instance filter
(`SurfaceInstanceData`); only the node handle is inspected by this
pass's filter. -/
structure SurfaceInstanceData where
  node_handle : Handle
deriving DecidableEq, Repr

/-- A draw-batch bundle tagged with its render path. -/
structure RenderDataBundle where
  render_path : RenderPath
  instances : List SurfaceInstanceData
deriving DecidableEq, Repr

/-- Pre-sorted bundle storage (`RenderDataBundleStorage`). -/
structure RenderDataBundleStorage where
  bundles : List RenderDataBundle
deriving DecidableEq, Repr

/-! ## GBuffer construction

`GBuffer::new` performs a fixed sequence of backend allocations; the
server model decides, per call index, whether the allocation succeeds,
and hands out the call index as the resource identifier.  Call order in
the source: textures `0` depth-stencil, `1` diffuse, `2` normal,
`3` ambient, `4` decal-mask, `5` material; `6` the primary framebuffer;
`7` the decal framebuffer; `8` the decal shader; `9` the unit-cube
geometry; `10` the occlusion tester's resources. -/

/-- Backend allocation behavior: which allocation calls succeed. -/
structure AllocBehavior where
  ok : Nat → Bool

/-- `create_texture` for the `i`-th allocation call: the texture id on
success, `Err` on failure.  The wrap-mode setters on the returned
texture always succeed and do not affect identity. -/
def createTexture (b : AllocBehavior) (i : Nat) : Except FrameworkError TextureId :=
  if b.ok i then Except.ok i else Except.error (FrameworkError.custom "texture allocation failed")

/-- `create_frame_buffer` for the `i`-th allocation call. -/
def createFrameBuffer (b : AllocBehavior) (i : Nat) (depth : Option Attachment)
    (colors : List Attachment) : Except FrameworkError FrameBufferDesc :=
  if b.ok i then Except.ok ⟨depth, colors⟩
  else Except.error (FrameworkError.custom "framebuffer allocation failed")

/-- `DecalShader::new` (allocation call `i`). -/
def createDecalShader (b : AllocBehavior) (i : Nat) : Except FrameworkError ShaderId :=
  if b.ok i then Except.ok i else Except.error (FrameworkError.custom "shader compilation failed")

/-- Unit-cube geometry-buffer upload (allocation call `i`). -/
def createCube (b : AllocBehavior) (i : Nat) : Except FrameworkError GeometryId :=
  if b.ok i then Except.ok i else Except.error (FrameworkError.custom "geometry allocation failed")

/-- `OcclusionTester::new` (allocation call `i`): fresh, empty state. -/
def createOcclusionTester (b : AllocBehavior) (i : Nat) :
    Except FrameworkError OcclusionTester :=
  if b.ok i then Except.ok ⟨⟨1, []⟩, []⟩
  else Except.error (FrameworkError.custom "occlusion tester allocation failed")

/-- The G-buffer render-target set and its helper resources. -/
structure GBuffer where
  framebuffer : FrameBufferDesc
  decal_framebuffer : FrameBufferDesc
  width : Int
  height : Int
  cube : GeometryId
  decal_shader : ShaderId
  occlusion_tester : OcclusionTester
deriving Repr

/-- `GBuffer::new`: allocates the six surfaces, the two framebuffers and
the helper resources in source order, propagating the first failure via
`?`.  The primary framebuffer binds depth-stencil plus the five color
surfaces in order diffuse, normal, ambient, material, decal-mask; the
decal framebuffer has no depth attachment and rebinds the same diffuse
and normal textures. -/
def GBuffer.new (b : AllocBehavior) (width height : Nat) : Except FrameworkError GBuffer := do
  let depth_stencil ← createTexture b 0
  let diffuse_texture ← createTexture b 1
  let normal_texture ← createTexture b 2
  let ambient_texture ← createTexture b 3
  let decal_mask_texture ← createTexture b 4
  let material_texture ← createTexture b 5
  let framebuffer ← createFrameBuffer b 6
    (some ⟨AttachmentKind.DepthStencil, depth_stencil⟩)
    [⟨AttachmentKind.Color, diffuse_texture⟩,
     ⟨AttachmentKind.Color, normal_texture⟩,
     ⟨AttachmentKind.Color, ambient_texture⟩,
     ⟨AttachmentKind.Color, material_texture⟩,
     ⟨AttachmentKind.Color, decal_mask_texture⟩]
  let decal_framebuffer ← createFrameBuffer b 7 none
    [⟨AttachmentKind.Color, diffuse_texture⟩,
     ⟨AttachmentKind.Color, normal_texture⟩]
  let decal_shader ← createDecalShader b 8
  let cube ← createCube b 9
  let occlusion_tester ← createOcclusionTester b 10
  pure
    { framebuffer := framebuffer
      decal_framebuffer := decal_framebuffer
      width := (width : Int)
      height := (height : Int)
      cube := cube
      decal_shader := decal_shader
      occlusion_tester := occlusion_tester }

/-- `GBuffer::depth`: the depth attachment's texture (panics — `unwrap`
in the source — when absent, hence the `Option`). -/
def GBuffer.depth (g : GBuffer) : Option TextureId :=
  g.framebuffer.depth_attachment.map (fun a => a.texture)

/-- `GBuffer::diffuse_texture`: color attachment `0`. -/
def GBuffer.diffuse_texture (g : GBuffer) : Option TextureId :=
  (g.framebuffer.color_attachments.get? 0).map (fun a => a.texture)

/-- `GBuffer::normal_texture`: color attachment `1`. -/
def GBuffer.normal_texture (g : GBuffer) : Option TextureId :=
  (g.framebuffer.color_attachments.get? 1).map (fun a => a.texture)

/-- `GBuffer::ambient_texture`: color attachment `2`. -/
def GBuffer.ambient_texture (g : GBuffer) : Option TextureId :=
  (g.framebuffer.color_attachments.get? 2).map (fun a => a.texture)

/-- `GBuffer::material_texture`: color attachment `3`. -/
def GBuffer.material_texture (g : GBuffer) : Option TextureId :=
  (g.framebuffer.color_attachments.get? 3).map (fun a => a.texture)

/-- `GBuffer::decal_mask_texture`: color attachment `4`. -/
def GBuffer.decal_mask_texture (g : GBuffer) : Option TextureId :=
  (g.framebuffer.color_attachments.get? 4).map (fun a => a.texture)

/-! ## The per-frame fill pass -/

/-- The quality toggles consumed by this pass. -/
structure QualitySettings where
  use_occlusion_culling : Bool
  use_parallax_mapping : Bool
deriving DecidableEq, Repr

/-- Fallback dummy textures (`FallbackResources`). -/
structure FallbackResources where
  white_dummy : TextureId
  normal_dummy : TextureId
deriving DecidableEq, Repr

/-- Per-frame behavior of the graphics backend: the outcome of the
geometry-pass draw-call batch, of the occlusion visibility test, and of
each decal draw (by decal index; a failing uniform-buffer write for a
decal is folded into that decal's draw outcome, as both abort `fill` at
the same point). -/
structure RenderServer where
  geometry_result : Option FrameworkError
  visibility_test_result : Option FrameworkError
  decal_draw_result : Nat → Option FrameworkError

/-- The arguments of `GBuffer::fill` (`GBufferRenderContext`).  The
geometry cache, shader cache and uniform allocators are single-threaded
caches whose lookups do not decide control flow here and are omitted;
the texture cache is its lookup function. -/
structure GBufferRenderContext where
  server : RenderServer
  camera : Camera
  bundle_storage : RenderDataBundleStorage
  texture_cache : TextureRef → Option TextureId
  quality_settings : QualitySettings
  fallback_resources : FallbackResources
  graph : Graph

/-- The bundle predicate `fill` passes to `render_to_frame_buffer`:
`bundle.render_path == RenderPath::Deferred`. -/
def gbufferBundleFilter (bundle : RenderDataBundle) : Bool :=
  bundle.render_path == RenderPath.Deferred

/-- The per-instance filter closure built inside `fill`: an instance is
drawn unless occlusion culling is on and its cell marks it invisible
(`!use_occlusion_culling || grid_cell.map_or(true, |cell|
cell.is_visible(instance.node_handle))`). -/
def instance_filter (qs : QualitySettings) (grid_cell : Option CellVisibility)
    (inst : SurfaceInstanceData) : Bool :=
  !qs.use_occlusion_culling ||
    (match grid_cell with
     | none => true
     | some cell => cell.is_visible inst.node_handle)

/-- Modelled from the spec: `RenderDataBundleStorage::render_to_frame_buffer`
(in `renderer/bundle.rs`, not among the sources under review) renders,
with one draw call each, every instance that passes the instance filter
of every bundle accepted by the bundle filter, skipping rejected bundles
entirely; a backend draw failure surfaces as `Err`.  Per-draw uniform
contents (camera basis vectors, near/far planes, parallax toggle) do not
decide which draws happen and are not recorded. -/
def renderToFrameBuffer (server : RenderServer) (storage : RenderDataBundleStorage)
    (bundle_filter : RenderDataBundle → Bool)
    (inst_filter : SurfaceInstanceData → Bool) :
    Except FrameworkError RenderPassStatistics :=
  match server.geometry_result with
  | some e => Except.error e
  | none =>
      Except.ok
        ⟨((storage.bundles.filter bundle_filter).map
            (fun b => (b.instances.filter inst_filter).length)).sum⟩

/-- The object set gathered for the visibility test: every instance's
node handle across all bundles, deduplicated (an `FxHashSet` in the
source; first-occurrence order stands in for hash order, which no claim
depends on). -/
def collectObjects (s : RenderDataBundleStorage) : List Handle :=
  s.bundles.foldl
    (fun acc b =>
      b.instances.foldl
        (fun acc2 i =>
          if acc2.contains i.node_handle then acc2 else acc2 ++ [i.node_handle])
        acc)
    []

/-- Everything bound by one decal draw call issued by `fill`. -/
structure DecalDrawCall where
  target : FrameBufferDesc
  geometry : GeometryId
  viewport : Rect
  program : ShaderId
  params : DrawParameters
  scene_depth : TextureId
  diffuse_texture : TextureId
  normal_texture : TextureId
  decal_mask : TextureId
  world_view_projection : Matrix4
  inv_view_projection : Matrix4
  inv_decal_transform : Matrix4
  resolution : Vector2
  color : Color
  layer : Nat
deriving DecidableEq, Repr

/-- The `DrawParameters` literal used for every decal draw. -/
def decalDrawParameters : DrawParameters :=
  { cull_face := none
    color_write := default
    depth_write := false
    stencil_test := none
    depth_test := none
    blend := some ⟨BlendFunc.new BlendFactor.SrcAlpha BlendFactor.OneMinusSrcAlpha, default⟩
    stencil_op := default
    scissor_box := none }

/-- One GPU-facing step performed by `fill`, in issue order. -/
inductive FrameEvent where
  | consumeResults
  | clear (viewport : Rect) (color : Option Color) (depth : Option ℚ) (stencil : Option Int)
  | geometryRender
  | issueQueries (objects : List Handle)
  | decalDraw (call : DecalDrawCall)
deriving DecidableEq, Repr

/-- The decal draw calls recorded in an event trace, in order. -/
def decalCallsOf (evs : List FrameEvent) : List DecalDrawCall :=
  evs.filterMap fun e =>
    match e with
    | FrameEvent.decalDraw c => some c
    | _ => none

/-- The draw call `fill` builds for one decal: secondary framebuffer,
unit-cube proxy, decal draw parameters, depth/diffuse/normal/decal-mask
bindings with cache lookup falling back to the white and flat-normal
dummies, and the uniform block of matrices, resolution, color, layer. -/
def mkDecalCall (g : GBuffer) (args : GBufferRenderContext) (viewport : Rect)
    (view_projection inv_view_proj : Matrix4) (depthTex maskTex : TextureId)
    (resolution : Vector2) (d : Decal) : DecalDrawCall :=
  { target := g.decal_framebuffer
    geometry := g.cube
    viewport := viewport
    program := g.decal_shader
    params := decalDrawParameters
    scene_depth := depthTex
    diffuse_texture :=
      (d.diffuse_texture.bind args.texture_cache).getD args.fallback_resources.white_dummy
    normal_texture :=
      (d.normal_texture.bind args.texture_cache).getD args.fallback_resources.normal_dummy
    decal_mask := maskTex
    world_view_projection := view_projection * d.global_transform
    inv_view_projection := inv_view_proj
    inv_decal_transform := (d.global_transform.tryInverse).getD Matrix4.zero
    resolution := resolution
    color := d.color
    layer := d.layer }

/-- The decal loop of `fill`: one draw per decal, in order; the first
failing draw returns its error (the `?` in the source), a completed loop
returns the accumulated statistics. -/
def decalLoop (g : GBuffer) (args : GBufferRenderContext) (viewport : Rect)
    (view_projection inv_view_proj : Matrix4) (depthTex maskTex : TextureId)
    (resolution : Vector2) :
    List Decal → Nat → RenderPassStatistics →
    List FrameEvent × Option (Except FrameworkError RenderPassStatistics)
  | [], _, st => ([], some (Except.ok st))
  | d :: rest, i, st =>
    let call := mkDecalCall g args viewport view_projection inv_view_proj
      depthTex maskTex resolution d
    match args.server.decal_draw_result i with
    | some e => ([FrameEvent.decalDraw call], some (Except.error e))
    | none =>
      let r := decalLoop g args viewport view_projection inv_view_proj
        depthTex maskTex resolution rest (i + 1) (st + ⟨1⟩)
      (FrameEvent.decalDraw call :: r.1, r.2)

/-- The decal phase of `fill`: computes the inverse view-projection with
`unwrap_or_default`, unwraps the depth and decal-mask attachments (a
panic — `none` — when the framebuffer lacks them), then runs the decal
loop over the graph's decals. -/
def decalPhase (g : GBuffer) (args : GBufferRenderContext)
    (view_projection : Matrix4) (st : RenderPassStatistics) :
    List FrameEvent × Option (Except FrameworkError RenderPassStatistics) :=
  let inv_view_proj := (view_projection.tryInverse).getD Matrix4.zero
  match g.depth, g.decal_mask_texture with
  | some depthTex, some maskTex =>
    let viewport : Rect := ⟨0, 0, g.width, g.height⟩
    let resolution : Vector2 := ⟨(g.width : ℚ), (g.height : ℚ)⟩
    decalLoop g args viewport view_projection inv_view_proj depthTex maskTex
      resolution args.graph.decals 0 st
  | _, _ => ([], none)

/-- `GBuffer::fill`, as the ordered list of GPU-facing events it
performs plus its outcome: `none` models a panic (the `unwrap` calls),
`some (Except.error e)` an early `Err` return, `some (Except.ok st)` a
completed frame with its statistics.  Source order: optional
result-consumption, clear, `inv_view` unwrap, geometry render, optional
query issue, decal loop. -/
def GBuffer.fill (g : GBuffer) (args : GBufferRenderContext) :
    List FrameEvent × Option (Except FrameworkError RenderPassStatistics) :=
  let view_projection := args.camera.view_projection_matrix
  let tester1 :=
    if args.quality_settings.use_occlusion_culling then
      g.occlusion_tester.try_query_visibility_results
    else g.occlusion_tester
  let ev0 : List FrameEvent :=
    if args.quality_settings.use_occlusion_culling then [FrameEvent.consumeResults] else []
  let viewport : Rect := ⟨0, 0, g.width, g.height⟩
  let ev1 := ev0 ++ [FrameEvent.clear viewport (some ⟨0, 0, 0, 0⟩) (some 1) (some 0)]
  match args.camera.inv_view_matrix with
  | none => (ev1, none)
  | some _inv_view =>
    let grid_cell := tester1.grid_cache.cell args.camera.global_position
    let filt := instance_filter args.quality_settings grid_cell
    let ev2 := ev1 ++ [FrameEvent.geometryRender]
    match renderToFrameBuffer args.server args.bundle_storage gbufferBundleFilter filt with
    | Except.error e => (ev2, some (Except.error e))
    | Except.ok st1 =>
      if args.quality_settings.use_occlusion_culling then
        let objects := collectObjects args.bundle_storage
        let ev3 := ev2 ++ [FrameEvent.issueQueries objects]
        match args.server.visibility_test_result with
        | some e => (ev3, some (Except.error e))
        | none =>
          let r := decalPhase g args view_projection st1
          (ev3 ++ r.1, r.2)
      else
        let r := decalPhase g args view_projection st1
        (ev2 ++ r.1, r.2)

/-- Decidable equality for `Except` results, so concrete runs of the
pass can be checked by evaluation. -/
instance instDecEqExcept {ε α : Type} [DecidableEq ε] [DecidableEq α] :
    DecidableEq (Except ε α) := fun a b =>
  match a, b with
  | Except.error x, Except.error y =>
      if h : x = y then isTrue (by rw [h])
      else isFalse (fun hh => h (by injection hh))
  | Except.ok x, Except.ok y =>
      if h : x = y then isTrue (by rw [h])
      else isFalse (fun hh => h (by injection hh))
  | Except.error _, Except.ok _ => isFalse (fun hh => Except.noConfusion hh)
  | Except.ok _, Except.error _ => isFalse (fun hh => Except.noConfusion hh)

/-- The clear call `fill` issues: full viewport, transparent black,
depth `1.0`, stencil `0`. -/
def clearEvent (g : GBuffer) : FrameEvent :=
  FrameEvent.clear ⟨0, 0, g.width, g.height⟩ (some ⟨0, 0, 0, 0⟩) (some 1) (some 0)

/-- The G-buffer value produced by a fully successful `GBuffer::new`,
with the sequentially allocated resource identifiers: `0` depth-stencil,
`1` diffuse, `2` normal, `3` ambient, `4` decal-mask, `5` material. -/
def builtGBuffer (width height : Nat) : GBuffer :=
  { framebuffer :=
      ⟨some ⟨AttachmentKind.DepthStencil, 0⟩,
       [⟨AttachmentKind.Color, 1⟩, ⟨AttachmentKind.Color, 2⟩,
        ⟨AttachmentKind.Color, 3⟩, ⟨AttachmentKind.Color, 5⟩,
        ⟨AttachmentKind.Color, 4⟩]⟩
    decal_framebuffer :=
      ⟨none, [⟨AttachmentKind.Color, 1⟩, ⟨AttachmentKind.Color, 2⟩]⟩
    width := (width : Int)
    height := (height : Int)
    cube := 9
    decal_shader := 8
    occlusion_tester := ⟨⟨1, []⟩, []⟩ }

/-! ## Concrete fixtures used to witness the theorems -/

/-- A backend on which every allocation succeeds. -/
def allocAllOk : AllocBehavior := ⟨fun _ => true⟩

/-- A backend on which the fourth allocation (the ambient surface)
fails. -/
def allocFailAmbient : AllocBehavior := ⟨fun i => !(i == 3)⟩

/-- A per-frame backend on which every draw succeeds. -/
def serverAllOk : RenderServer := ⟨none, none, fun _ => none⟩

/-- A per-frame backend whose geometry-pass batch fails. -/
def serverGeomFail : RenderServer :=
  ⟨some (FrameworkError.custom "draw failed"), none, fun _ => none⟩

/-- A camera with identity view and projection. -/
def testCamera : Camera :=
  { view_matrix := Matrix4.identity
    projection_matrix := Matrix4.identity
    global_position := ⟨0, 0, 0⟩
    projection := ⟨1/10, 100⟩ }

/-- A camera whose view matrix is singular (all-zero). -/
def singularCamera : Camera :=
  { view_matrix := Matrix4.zero
    projection_matrix := Matrix4.identity
    global_position := ⟨0, 0, 0⟩
    projection := ⟨1/10, 100⟩ }

/-- A decal with no diffuse and no normal texture. -/
def testDecal : Decal :=
  { global_transform := Matrix4.identity
    diffuse_texture := none
    normal_texture := none
    color := ⟨255, 255, 255, 255⟩
    layer := 0 }

/-- A graph holding one non-decal node and one decal. -/
def testGraph : Graph := ⟨[Node.other, Node.decal testDecal]⟩

/-- One deferred bundle and one forward bundle, one instance each. -/
def testStorage : RenderDataBundleStorage :=
  ⟨[⟨RenderPath.Deferred, [⟨7⟩]⟩, ⟨RenderPath.Forward, [⟨8⟩]⟩]⟩

/-- Fallback dummy texture ids. -/
def testFallback : FallbackResources := ⟨100, 101⟩

/-- A render context over the fixtures with an all-succeeding backend,
an empty texture cache and the given occlusion-culling toggle. -/
def testContext (occl : Bool) : GBufferRenderContext :=
  { server := serverAllOk
    camera := testCamera
    bundle_storage := testStorage
    texture_cache := fun _ => none
    quality_settings := ⟨occl, false⟩
    fallback_resources := testFallback
    graph := testGraph }

/-- The same context with a failing geometry pass. -/
def geomFailContext : GBufferRenderContext :=
  { server := serverGeomFail
    camera := testCamera
    bundle_storage := testStorage
    texture_cache := fun _ => none
    quality_settings := ⟨false, false⟩
    fallback_resources := testFallback
    graph := testGraph }

/-- The G-buffer the fixtures render into. -/
def testGBuffer : GBuffer := builtGBuffer 4 4


/-- A context whose camera view matrix is singular. -/
def singularContext : GBufferRenderContext :=
  { testContext false with camera := singularCamera }

/-- The failing-geometry context with occlusion culling enabled. -/
def geomFailOcclContext : GBufferRenderContext :=
  { geomFailContext with quality_settings := ⟨true, false⟩ }

/-! ## Helper lemmas about the decal loop -/

theorem decalLoop_events_are_draws (g : GBuffer) (args : GBufferRenderContext)
    (viewport : Rect) (vp ivp : Matrix4) (dt mt : TextureId) (res : Vector2) :
    ∀ (ds : List Decal) (i : Nat) (st : RenderPassStatistics)
      (e : FrameEvent),
      e ∈ (decalLoop g args viewport vp ivp dt mt res ds i st).1 →
      ∃ c, e = FrameEvent.decalDraw c := by
  intro ds
  induction ds with
  | nil => intro i st e he; simp [decalLoop] at he
  | cons d rest ih =>
    intro i st e he
    simp only [decalLoop] at he
    cases hr : args.server.decal_draw_result i with
    | some err =>
      rw [hr] at he
      simp at he
      exact ⟨_, he⟩
    | none =>
      rw [hr] at he
      simp at he
      rcases he with he | he
      · exact ⟨_, he⟩
      · exact ih (i + 1) (st + ⟨1⟩) e he

theorem decalLoop_outcome_isSome (g : GBuffer) (args : GBufferRenderContext)
    (viewport : Rect) (vp ivp : Matrix4) (dt mt : TextureId) (res : Vector2) :
    ∀ (ds : List Decal) (i : Nat) (st : RenderPassStatistics),
      (decalLoop g args viewport vp ivp dt mt res ds i st).2.isSome := by
  intro ds
  induction ds with
  | nil => intro i st; simp [decalLoop]
  | cons d rest ih =>
    intro i st
    simp only [decalLoop]
    cases hr : args.server.decal_draw_result i with
    | some err => simp
    | none => simpa using ih (i + 1) (st + ⟨1⟩)

theorem decalLoop_ok_events (g : GBuffer) (args : GBufferRenderContext)
    (viewport : Rect) (vp ivp : Matrix4) (dt mt : TextureId) (res : Vector2) :
    ∀ (ds : List Decal) (i : Nat) (st st2 : RenderPassStatistics),
      (decalLoop g args viewport vp ivp dt mt res ds i st).2 =
        some (Except.ok st2) →
      (decalLoop g args viewport vp ivp dt mt res ds i st).1 =
        ds.map (fun d =>
          FrameEvent.decalDraw (mkDecalCall g args viewport vp ivp dt mt res d)) := by
  intro ds
  induction ds with
  | nil => intro i st st2 _; simp [decalLoop]
  | cons d rest ih =>
    intro i st st2 h
    simp only [decalLoop] at h ⊢
    cases hr : args.server.decal_draw_result i with
    | some err => rw [hr] at h; simp at h
    | none =>
      rw [hr] at h
      simp only [List.map_cons, List.cons.injEq, true_and]
      exact ih (i + 1) (st + ⟨1⟩) st2 h

theorem decalCallsOf_append (a b : List FrameEvent) :
    decalCallsOf (a ++ b) = decalCallsOf a ++ decalCallsOf b := by
  simp [decalCallsOf]

theorem decalCallsOf_nil : decalCallsOf [] = [] := rfl

theorem decalCallsOf_cons_draw (c : DecalDrawCall) (l : List FrameEvent) :
    decalCallsOf (FrameEvent.decalDraw c :: l) = c :: decalCallsOf l := by
  simp [decalCallsOf]

theorem decalCallsOf_cons_consume (l : List FrameEvent) :
    decalCallsOf (FrameEvent.consumeResults :: l) = decalCallsOf l := by
  simp [decalCallsOf]

theorem decalCallsOf_cons_clear (vp : Rect) (c : Option Color) (d : Option ℚ)
    (s : Option Int) (l : List FrameEvent) :
    decalCallsOf (FrameEvent.clear vp c d s :: l) = decalCallsOf l := by
  simp [decalCallsOf]

theorem decalCallsOf_cons_geom (l : List FrameEvent) :
    decalCallsOf (FrameEvent.geometryRender :: l) = decalCallsOf l := by
  simp [decalCallsOf]

theorem decalCallsOf_cons_issue (os : List Handle) (l : List FrameEvent) :
    decalCallsOf (FrameEvent.issueQueries os :: l) = decalCallsOf l := by
  simp [decalCallsOf]

theorem decalCallsOf_map_draw (l : List Decal) (f : Decal → DecalDrawCall) :
    decalCallsOf (l.map (fun d => FrameEvent.decalDraw (f d))) = l.map f := by
  induction l with
  | nil => rfl
  | cons d rest ih => simp [decalCallsOf] at ih ⊢; exact ih

/-! ## Helper lemmas about `GBuffer::new` -/

theorem new_eq_of_all (b : AllocBehavior) (width height : Nat)
    (hall : ∀ i, i < 11 → b.ok i = true) :
    GBuffer.new b width height = Except.ok (builtGBuffer width height) := by
  have h0 := hall 0 (by omega)
  have h1 := hall 1 (by omega)
  have h2 := hall 2 (by omega)
  have h3 := hall 3 (by omega)
  have h4 := hall 4 (by omega)
  have h5 := hall 5 (by omega)
  have h6 := hall 6 (by omega)
  have h7 := hall 7 (by omega)
  have h8 := hall 8 (by omega)
  have h9 := hall 9 (by omega)
  have h10 := hall 10 (by omega)
  simp [GBuffer.new, createTexture, createFrameBuffer, createDecalShader,
    createCube, createOcclusionTester, h0, h1, h2, h3, h4, h5, h6, h7, h8,
    h9, h10, builtGBuffer, Bind.bind, Except.bind, pure, Except.pure]

theorem new_ok_inversion (b : AllocBehavior) (width height : Nat)
    (gb : GBuffer) (hgb : GBuffer.new b width height = Except.ok gb) :
    (∀ i, i < 11 → b.ok i = true) ∧ gb = builtGBuffer width height := by
  by_cases hall : ∀ i, i < 11 → b.ok i = true
  · refine ⟨hall, ?_⟩
    rw [new_eq_of_all b width height hall] at hgb
    injection hgb with h
    exact h.symm
  · exfalso
    push_neg at hall
    obtain ⟨i, hi, hni⟩ := hall
    have hfalse : b.ok i = false := by
      cases hcase : b.ok i with
      | true => exact absurd hcase hni
      | false => rfl
    cases hk0 : b.ok 0 with
    | false =>
      simp [GBuffer.new, createTexture, hk0, Bind.bind, Except.bind] at hgb
    | true =>
    cases hk1 : b.ok 1 with
    | false =>
      simp [GBuffer.new, createTexture, hk0, hk1, Bind.bind, Except.bind] at hgb
    | true =>
    cases hk2 : b.ok 2 with
    | false =>
      simp [GBuffer.new, createTexture, hk0, hk1, hk2, Bind.bind, Except.bind] at hgb
    | true =>
    cases hk3 : b.ok 3 with
    | false =>
      simp [GBuffer.new, createTexture, hk0, hk1, hk2, hk3, Bind.bind,
        Except.bind] at hgb
    | true =>
    cases hk4 : b.ok 4 with
    | false =>
      simp [GBuffer.new, createTexture, hk0, hk1, hk2, hk3, hk4, Bind.bind,
        Except.bind] at hgb
    | true =>
    cases hk5 : b.ok 5 with
    | false =>
      simp [GBuffer.new, createTexture, hk0, hk1, hk2, hk3, hk4, hk5,
        Bind.bind, Except.bind] at hgb
    | true =>
    cases hk6 : b.ok 6 with
    | false =>
      simp [GBuffer.new, createTexture, createFrameBuffer, hk0, hk1, hk2, hk3,
        hk4, hk5, hk6, Bind.bind, Except.bind] at hgb
    | true =>
    cases hk7 : b.ok 7 with
    | false =>
      simp [GBuffer.new, createTexture, createFrameBuffer, hk0, hk1, hk2, hk3,
        hk4, hk5, hk6, hk7, Bind.bind, Except.bind] at hgb
    | true =>
    cases hk8 : b.ok 8 with
    | false =>
      simp [GBuffer.new, createTexture, createFrameBuffer, createDecalShader,
        hk0, hk1, hk2, hk3, hk4, hk5, hk6, hk7, hk8, Bind.bind,
        Except.bind] at hgb
    | true =>
    cases hk9 : b.ok 9 with
    | false =>
      simp [GBuffer.new, createTexture, createFrameBuffer, createDecalShader,
        createCube, hk0, hk1, hk2, hk3, hk4, hk5, hk6, hk7, hk8, hk9,
        Bind.bind, Except.bind] at hgb
    | true =>
    cases hk10 : b.ok 10 with
    | false =>
      simp [GBuffer.new, createTexture, createFrameBuffer, createDecalShader,
        createCube, createOcclusionTester, hk0, hk1, hk2, hk3, hk4, hk5, hk6,
        hk7, hk8, hk9, hk10, Bind.bind, Except.bind] at hgb
    | true =>
      have : b.ok i = true := by
        interval_cases i <;> assumption
      rw [this] at hfalse
      exact Bool.noConfusion hfalse

/-! ## Anatomy of the fill trace -/

theorem fill_trace_anatomy (g : GBuffer) (args : GBufferRenderContext) :
    ∃ rest, (GBuffer.fill g args).1 =
      (if args.quality_settings.use_occlusion_culling then
        [FrameEvent.consumeResults] else []) ++ clearEvent g :: rest := by
  cases hocc : args.quality_settings.use_occlusion_culling <;>
  cases hiv : args.camera.inv_view_matrix <;>
  cases hsg : args.server.geometry_result <;>
  cases hvt : args.server.visibility_test_result <;>
  cases hd : g.depth <;>
  cases hm : g.decal_mask_texture <;>
  simp [GBuffer.fill, decalPhase, renderToFrameBuffer, clearEvent,
    hocc, hiv, hsg, hvt, hd, hm]

theorem decalLoop_call_get (g : GBuffer) (args : GBufferRenderContext)
    (viewport : Rect) (vp ivp : Matrix4) (dt mt : TextureId) (res : Vector2) :
    ∀ (ds : List Decal) (i : Nat) (st : RenderPassStatistics) (j : Nat)
      (c : DecalDrawCall),
      (decalCallsOf
        (decalLoop g args viewport vp ivp dt mt res ds i st).1).get? j =
          some c →
      ∃ d, ds.get? j = some d ∧
        c = mkDecalCall g args viewport vp ivp dt mt res d := by
  intro ds
  induction ds with
  | nil => intro i st j c hc; simp [decalLoop, decalCallsOf] at hc
  | cons d rest ih =>
    intro i st j c hc
    simp only [decalLoop] at hc
    cases hr : args.server.decal_draw_result i with
    | some err =>
      rw [hr] at hc
      cases j with
      | zero =>
        simp [decalCallsOf] at hc
        exact ⟨d, rfl, hc.symm⟩
      | succ n => simp [decalCallsOf] at hc
    | none =>
      rw [hr] at hc
      rw [decalCallsOf_cons_draw] at hc
      cases j with
      | zero =>
        simp at hc
        exact ⟨d, rfl, hc.symm⟩
      | succ n =>
        simp only [List.get?] at hc
        exact ih (i + 1) (st + ⟨1⟩) n c hc

/-- Characterization of the decal phase of a frame that completed
successfully: the depth and decal-mask attachments were present and the
decal draw calls of the trace are exactly one `mkDecalCall` per decal of
the graph, in scene iteration order. -/
theorem fill_ok_decal_calls (g : GBuffer) (args : GBufferRenderContext)
    (st : RenderPassStatistics)
    (h : (GBuffer.fill g args).2 = some (Except.ok st)) :
    ∃ dt mt, g.depth = some dt ∧ g.decal_mask_texture = some mt ∧
      decalCallsOf (GBuffer.fill g args).1 =
        args.graph.decals.map
          (mkDecalCall g args ⟨0, 0, g.width, g.height⟩
            args.camera.view_projection_matrix
            ((args.camera.view_projection_matrix.tryInverse).getD Matrix4.zero)
            dt mt ⟨(g.width : ℚ), (g.height : ℚ)⟩) := by
  cases hiv : args.camera.inv_view_matrix with
  | none =>
    exfalso
    cases hocc : args.quality_settings.use_occlusion_culling <;>
      simp [GBuffer.fill, hocc, hiv] at h
  | some iv =>
  cases hsg : args.server.geometry_result with
  | some e =>
    exfalso
    cases hocc : args.quality_settings.use_occlusion_culling <;>
      simp [GBuffer.fill, renderToFrameBuffer, hocc, hiv, hsg] at h
  | none =>
  cases hd : g.depth with
  | none =>
    exfalso
    cases hocc : args.quality_settings.use_occlusion_culling <;>
      cases hvt : args.server.visibility_test_result <;>
      simp [GBuffer.fill, decalPhase, renderToFrameBuffer,
        hocc, hiv, hsg, hvt, hd] at h
  | some dt =>
  cases hm : g.decal_mask_texture with
  | none =>
    exfalso
    cases hocc : args.quality_settings.use_occlusion_culling <;>
      cases hvt : args.server.visibility_test_result <;>
      simp [GBuffer.fill, decalPhase, renderToFrameBuffer,
        hocc, hiv, hsg, hvt, hd, hm] at h
  | some mt =>
  refine ⟨dt, mt, rfl, rfl, ?_⟩
  cases hocc : args.quality_settings.use_occlusion_culling with
  | false =>
    simp [GBuffer.fill, decalPhase, renderToFrameBuffer,
      hocc, hiv, hsg, hd, hm] at h ⊢
    rw [decalLoop_ok_events _ _ _ _ _ _ _ _ _ _ _ _ h]
    simp [decalCallsOf_cons_clear, decalCallsOf_cons_geom,
      decalCallsOf_map_draw]
  | true =>
    cases hvt : args.server.visibility_test_result with
    | some e =>
      exfalso
      simp [GBuffer.fill, decalPhase, renderToFrameBuffer,
        hocc, hiv, hsg, hvt, hd, hm] at h
    | none =>
      simp [GBuffer.fill, decalPhase, renderToFrameBuffer,
        hocc, hiv, hsg, hvt, hd, hm] at h ⊢
      rw [decalLoop_ok_events _ _ _ _ _ _ _ _ _ _ _ _ h]
      simp [decalCallsOf_cons_consume, decalCallsOf_cons_clear,
        decalCallsOf_cons_geom, decalCallsOf_cons_issue, decalCallsOf_map_draw]

theorem decalLoop_outcome_ne_none (g : GBuffer) (args : GBufferRenderContext)
    (viewport : Rect) (vp ivp : Matrix4) (dt mt : TextureId) (res : Vector2)
    (ds : List Decal) (i : Nat) (st : RenderPassStatistics) :
    (decalLoop g args viewport vp ivp dt mt res ds i st).2 ≠ none := by
  intro hh
  have hs := decalLoop_outcome_isSome g args viewport vp ivp dt mt res ds i st
  rw [hh] at hs
  exact Bool.noConfusion hs

/-- Every decal draw call recorded by `fill` pairs up, positionally,
with a decal of the graph, and is the `mkDecalCall` of that decal with
the depth and decal-mask attachments and the defaulted inverse
view-projection — in every run, completed or aborted. -/
theorem fill_decal_call_pairs (g : GBuffer) (args : GBufferRenderContext) :
    ∀ j c, (decalCallsOf (GBuffer.fill g args).1).get? j = some c →
      ∃ d dt mt, args.graph.decals.get? j = some d ∧ g.depth = some dt ∧
        g.decal_mask_texture = some mt ∧
        c = mkDecalCall g args ⟨0, 0, g.width, g.height⟩
          args.camera.view_projection_matrix
          ((args.camera.view_projection_matrix.tryInverse).getD Matrix4.zero)
          dt mt ⟨(g.width : ℚ), (g.height : ℚ)⟩ d := by
  intro j c hc
  cases hocc : args.quality_settings.use_occlusion_culling <;>
  cases hiv : args.camera.inv_view_matrix <;>
  cases hsg : args.server.geometry_result <;>
  cases hvt : args.server.visibility_test_result <;>
  cases hd : g.depth <;>
  cases hm : g.decal_mask_texture <;>
  simp only [GBuffer.fill, decalPhase, renderToFrameBuffer,
    hocc, hiv, hsg, hvt, hd, hm, List.cons_append, List.nil_append,
    List.singleton_append, List.append_assoc, List.append_nil,
    Bool.false_eq_true, if_false, if_true, decalCallsOf_cons_consume,
    decalCallsOf_cons_clear, decalCallsOf_cons_geom, decalCallsOf_cons_issue,
    decalCallsOf_nil, List.get?_nil] at hc <;>
  first
  | exact Option.noConfusion hc
  | · obtain ⟨d, hdg, hcd⟩ :=
        decalLoop_call_get g args _ _ _ _ _ _ args.graph.decals 0 _ j c hc
      exact ⟨d, _, _, hdg, rfl, rfl, hcd⟩

/-! ## Claim theorems -/

/-- C5: if any of the six surface allocations or either of the two
framebuffer allocations fails (call indices `0`–`7`), `GBuffer::new`
returns an error and no G-buffer value is produced; if every allocation
of `new` succeeds, it returns a G-buffer. -/
theorem gbuffer_new_all_or_nothing (b : AllocBehavior) (width height : Nat) :
    ((∃ i, i < 8 ∧ b.ok i = false) →
      ∃ e, GBuffer.new b width height = Except.error e) ∧
    ((∀ i, i < 11 → b.ok i = true) →
      ∃ gb, GBuffer.new b width height = Except.ok gb) := by
  constructor
  · rintro ⟨i, hi, hfalse⟩
    cases hE : GBuffer.new b width height with
    | error e => exact ⟨e, rfl⟩
    | ok gb =>
      have h := (new_ok_inversion b width height gb hE).1 i (by omega)
      rw [h] at hfalse
      exact Bool.noConfusion hfalse
  · intro hall
    exact ⟨builtGBuffer width height, new_eq_of_all b width height hall⟩

/-- Witness for C5: with the ambient-surface allocation failing, `new`
errors; with every allocation succeeding, `new` returns a G-buffer. -/
theorem gbuffer_new_all_or_nothing_witness :
    (∃ e, GBuffer.new allocFailAmbient 4 4 = Except.error e) ∧
    (∃ gb, GBuffer.new allocAllOk 4 4 = Except.ok gb) :=
  ⟨(gbuffer_new_all_or_nothing allocFailAmbient 4 4).1 ⟨3, by omega, by decide⟩,
   (gbuffer_new_all_or_nothing allocAllOk 4 4).2 (fun _ _ => rfl)⟩

/-- C6: a successfully created G-buffer's primary framebuffer binds a
depth-stencil attachment plus exactly the five color attachments, in
order diffuse (`1`), normal (`2`), ambient (`3`), material (`5`),
decal-mask (`4`) — identifiers by allocation order — while the decal
framebuffer has no depth attachment and exactly two color attachments
sharing the primary framebuffer's color attachments `0` and `1`. -/
theorem gbuffer_attachment_layout (b : AllocBehavior) (width height : Nat)
    (gb : GBuffer) (hgb : GBuffer.new b width height = Except.ok gb) :
    gb.framebuffer.depth_attachment = some ⟨AttachmentKind.DepthStencil, 0⟩ ∧
    gb.framebuffer.color_attachments =
      [⟨AttachmentKind.Color, 1⟩, ⟨AttachmentKind.Color, 2⟩,
       ⟨AttachmentKind.Color, 3⟩, ⟨AttachmentKind.Color, 5⟩,
       ⟨AttachmentKind.Color, 4⟩] ∧
    gb.decal_framebuffer.depth_attachment = none ∧
    gb.decal_framebuffer.color_attachments.length = 2 ∧
    gb.decal_framebuffer.color_attachments.get? 0 =
      gb.framebuffer.color_attachments.get? 0 ∧
    gb.decal_framebuffer.color_attachments.get? 1 =
      gb.framebuffer.color_attachments.get? 1 := by
  obtain ⟨-, rfl⟩ := new_ok_inversion b width height gb hgb
  exact ⟨rfl, rfl, rfl, rfl, rfl, rfl⟩

/-- Witness for C6: the attachment layout of a concretely constructed
G-buffer. -/
theorem gbuffer_attachment_layout_witness :
    (builtGBuffer 4 4).framebuffer.depth_attachment =
      some ⟨AttachmentKind.DepthStencil, 0⟩ ∧
    (builtGBuffer 4 4).framebuffer.color_attachments =
      [⟨AttachmentKind.Color, 1⟩, ⟨AttachmentKind.Color, 2⟩,
       ⟨AttachmentKind.Color, 3⟩, ⟨AttachmentKind.Color, 5⟩,
       ⟨AttachmentKind.Color, 4⟩] ∧
    (builtGBuffer 4 4).decal_framebuffer.depth_attachment = none ∧
    (builtGBuffer 4 4).decal_framebuffer.color_attachments.length = 2 ∧
    (builtGBuffer 4 4).decal_framebuffer.color_attachments.get? 0 =
      (builtGBuffer 4 4).framebuffer.color_attachments.get? 0 ∧
    (builtGBuffer 4 4).decal_framebuffer.color_attachments.get? 1 =
      (builtGBuffer 4 4).framebuffer.color_attachments.get? 1 :=
  gbuffer_attachment_layout allocAllOk 4 4 (builtGBuffer 4 4)
    (new_eq_of_all allocAllOk 4 4 (fun _ _ => rfl))

/-- C2: the geometry pass's instance filter accepts an instance iff
occlusion culling is disabled, or no grid cell is recorded at the
camera's position, or the cell marks the instance's node handle visible;
and a cell with no recorded entry for a handle reports it visible
(fail-open). -/
theorem instance_filter_fail_open :
    (∀ (qs : QualitySettings) (gc : Option CellVisibility)
       (inst : SurfaceInstanceData),
      instance_filter qs gc inst = true ↔
        (qs.use_occlusion_culling = false ∨ gc = none ∨
          ∃ cell, gc = some cell ∧
            cell.is_visible inst.node_handle = true)) ∧
    (∀ (cell : CellVisibility) (h : Handle),
      cell.entries.find? (fun e => e.1 == h) = none →
      cell.is_visible h = true) := by
  constructor
  · intro qs gc inst
    cases gc with
    | none =>
      cases hq : qs.use_occlusion_culling <;> simp [instance_filter, hq]
    | some cell =>
      cases hq : qs.use_occlusion_culling <;> simp [instance_filter, hq]
  · intro cell h hnone
    simp [CellVisibility.is_visible, hnone]

/-- Witness for C2: with occlusion culling enabled and a recorded cell
empty of entries, the filter lets a concrete instance through, and the
empty cell reports a concrete handle visible. -/
theorem instance_filter_fail_open_witness :
    instance_filter ⟨true, false⟩ (some ⟨[]⟩) ⟨7⟩ = true ∧
    CellVisibility.is_visible ⟨[]⟩ 7 = true :=
  ⟨(instance_filter_fail_open.1 ⟨true, false⟩ (some ⟨[]⟩) ⟨7⟩).mpr
      (Or.inr (Or.inr ⟨⟨[]⟩, rfl, instance_filter_fail_open.2 ⟨[]⟩ 7 rfl⟩)),
   instance_filter_fail_open.2 ⟨[]⟩ 7 rfl⟩

/-- C9: the bundle predicate `fill` hands to `render_to_frame_buffer`
accepts a bundle iff its render path is `Deferred`; dropping every
non-deferred bundle leaves the render result unchanged, and a storage
with no deferred bundle contributes zero draw calls and zero
statistics. -/
theorem deferred_bundle_filter_spec :
    (∀ bundle : RenderDataBundle,
      gbufferBundleFilter bundle = true ↔
        bundle.render_path = RenderPath.Deferred) ∧
    (∀ (server : RenderServer) (storage : RenderDataBundleStorage)
       (instf : SurfaceInstanceData → Bool),
      renderToFrameBuffer server storage gbufferBundleFilter instf =
        renderToFrameBuffer server ⟨storage.bundles.filter gbufferBundleFilter⟩
          gbufferBundleFilter instf) ∧
    (∀ (server : RenderServer) (storage : RenderDataBundleStorage)
       (instf : SurfaceInstanceData → Bool),
      (∀ bundle ∈ storage.bundles, bundle.render_path ≠ RenderPath.Deferred) →
      server.geometry_result = none →
      renderToFrameBuffer server storage gbufferBundleFilter instf =
        Except.ok ⟨0⟩) := by
  refine ⟨?_, ?_, ?_⟩
  · intro bundle
    simp [gbufferBundleFilter]
  · intro server storage instf
    cases hsg : server.geometry_result with
    | some e => simp [renderToFrameBuffer, hsg]
    | none => simp [renderToFrameBuffer, hsg, List.filter_filter]
  · intro server storage instf hnone hg
    have hempty : storage.bundles.filter gbufferBundleFilter = [] := by
      rw [List.filter_eq_nil_iff]
      intro bundle hb
      simp [gbufferBundleFilter]
      exact hnone bundle hb
    simp [renderToFrameBuffer, hg, hempty]

/-- Witness for C9: a concrete forward-only storage renders with zero
draw calls, and the filter accepts a concrete deferred bundle. -/
theorem deferred_bundle_filter_spec_witness :
    gbufferBundleFilter ⟨RenderPath.Deferred, []⟩ = true ∧
    renderToFrameBuffer serverAllOk ⟨[⟨RenderPath.Forward, [⟨8⟩]⟩]⟩
      gbufferBundleFilter (fun _ => true) = Except.ok ⟨0⟩ :=
  ⟨(deferred_bundle_filter_spec.1 ⟨RenderPath.Deferred, []⟩).mpr rfl,
   deferred_bundle_filter_spec.2.2 serverAllOk ⟨[⟨RenderPath.Forward, [⟨8⟩]⟩]⟩
     (fun _ => true) (by decide) rfl⟩

/-- C1 (amended): when the geometry pass's draw into the primary
framebuffer returns an error (and the view matrix is invertible, so the
frame got past the clear), `fill` propagates the error immediately: the
frame's trace ends at the geometry render, decal compositing does not
run, and no occlusion queries are issued. -/
theorem fill_geom_error_aborts (g : GBuffer) (args : GBufferRenderContext)
    (e : FrameworkError) (iv : Matrix4)
    (h1 : args.server.geometry_result = some e)
    (h2 : args.camera.inv_view_matrix = some iv) :
    GBuffer.fill g args =
      ((if args.quality_settings.use_occlusion_culling then
          [FrameEvent.consumeResults] else []) ++
        [clearEvent g, FrameEvent.geometryRender],
       some (Except.error e)) ∧
    decalCallsOf (GBuffer.fill g args).1 = [] := by
  refine ⟨?_, ?_⟩ <;>
  cases hocc : args.quality_settings.use_occlusion_culling <;>
  simp [GBuffer.fill, renderToFrameBuffer, clearEvent, hocc, h1, h2,
    decalCallsOf_cons_consume, decalCallsOf_cons_clear,
    decalCallsOf_cons_geom, decalCallsOf_nil]

/-- C4: every frame's trace opens with (at most a result-consumption
step and) the clear of the whole viewport to transparent black, depth
`1.0`, stencil `0`, and the clear strictly precedes every geometry
render event. -/
theorem fill_clears_before_geometry (g : GBuffer) (args : GBufferRenderContext) :
    ∃ i, (GBuffer.fill g args).1.get? i = some (clearEvent g) ∧
      ∀ j, (GBuffer.fill g args).1.get? j = some FrameEvent.geometryRender →
        i < j := by
  obtain ⟨rest, hshape⟩ := fill_trace_anatomy g args
  cases hocc : args.quality_settings.use_occlusion_culling with
  | false =>
    rw [hocc] at hshape
    simp only [Bool.false_eq_true, if_false, List.nil_append] at hshape
    refine ⟨0, by rw [hshape]; rfl, ?_⟩
    intro j hj
    cases j with
    | zero =>
      rw [hshape] at hj
      simp [clearEvent] at hj
    | succ n => omega
  | true =>
    rw [hocc] at hshape
    simp only [if_true, List.cons_append, List.nil_append,
      List.singleton_append] at hshape
    refine ⟨1, by rw [hshape]; rfl, ?_⟩
    intro j hj
    match j with
    | 0 =>
      rw [hshape] at hj
      simp at hj
    | 1 =>
      rw [hshape] at hj
      simp [clearEvent] at hj
    | n + 2 => omega

/-- Helper: in a completed frame with occlusion culling enabled, the
trace consumes prior-frame query results strictly before the geometry
render, issues the new visibility queries strictly after it, and every
decal draw comes strictly after the query issuance. -/
theorem fill_occlusion_ordering (g : GBuffer) (args : GBufferRenderContext)
    (st : RenderPassStatistics)
    (h1 : args.quality_settings.use_occlusion_culling = true)
    (h2 : (GBuffer.fill g args).2 = some (Except.ok st)) :
    ∃ ic ig iq, ic < ig ∧ ig < iq ∧
      (GBuffer.fill g args).1.get? ic = some FrameEvent.consumeResults ∧
      (GBuffer.fill g args).1.get? ig = some FrameEvent.geometryRender ∧
      (GBuffer.fill g args).1.get? iq =
        some (FrameEvent.issueQueries (collectObjects args.bundle_storage)) ∧
      ∀ j c, (GBuffer.fill g args).1.get? j =
        some (FrameEvent.decalDraw c) → iq < j := by
  cases hiv : args.camera.inv_view_matrix with
  | none =>
    exfalso
    simp [GBuffer.fill, h1, hiv] at h2
  | some iv =>
  cases hsg : args.server.geometry_result with
  | some e =>
    exfalso
    simp [GBuffer.fill, renderToFrameBuffer, h1, hiv, hsg] at h2
  | none =>
  cases hvt : args.server.visibility_test_result with
  | some e =>
    exfalso
    simp [GBuffer.fill, renderToFrameBuffer, h1, hiv, hsg, hvt] at h2
  | none =>
  cases hd : g.depth with
  | none =>
    exfalso
    simp [GBuffer.fill, decalPhase, renderToFrameBuffer,
      h1, hiv, hsg, hvt, hd] at h2
  | some dt =>
  cases hm : g.decal_mask_texture with
  | none =>
    exfalso
    simp [GBuffer.fill, decalPhase, renderToFrameBuffer,
      h1, hiv, hsg, hvt, hd, hm] at h2
  | some mt =>
  refine ⟨0, 2, 3, by omega, by omega, ?_, ?_, ?_, ?_⟩
  · simp [GBuffer.fill, decalPhase, renderToFrameBuffer,
      h1, hiv, hsg, hvt, hd, hm]
  · simp [GBuffer.fill, decalPhase, renderToFrameBuffer,
      h1, hiv, hsg, hvt, hd, hm]
  · simp [GBuffer.fill, decalPhase, renderToFrameBuffer,
      h1, hiv, hsg, hvt, hd, hm]
  · intro j c hj
    match j with
    | 0 =>
      simp [GBuffer.fill, decalPhase, renderToFrameBuffer,
        h1, hiv, hsg, hvt, hd, hm] at hj
    | 1 =>
      simp [GBuffer.fill, decalPhase, renderToFrameBuffer,
        h1, hiv, hsg, hvt, hd, hm] at hj
    | 2 =>
      simp [GBuffer.fill, decalPhase, renderToFrameBuffer,
        h1, hiv, hsg, hvt, hd, hm] at hj
    | 3 =>
      simp [GBuffer.fill, decalPhase, renderToFrameBuffer,
        h1, hiv, hsg, hvt, hd, hm] at hj
    | n + 4 => omega

/-- Helper: with occlusion culling enabled, every trace of `fill` is one
of three prefixes of the full frame — stopped after the clear (view
matrix singular), stopped after the geometry render (geometry error), or
the full prefix through query issuance followed only by decal draws. -/
theorem fill_occl_trace_cases (g : GBuffer) (args : GBufferRenderContext)
    (h1 : args.quality_settings.use_occlusion_culling = true) :
    ∃ tail, (∀ e ∈ tail, ∃ c, e = FrameEvent.decalDraw c) ∧
      ((GBuffer.fill g args).1 =
        [FrameEvent.consumeResults, clearEvent g] ∨
       (GBuffer.fill g args).1 =
        [FrameEvent.consumeResults, clearEvent g, FrameEvent.geometryRender] ∨
       (GBuffer.fill g args).1 =
        FrameEvent.consumeResults :: clearEvent g ::
          FrameEvent.geometryRender ::
          FrameEvent.issueQueries (collectObjects args.bundle_storage) ::
          tail) := by
  cases hiv : args.camera.inv_view_matrix with
  | none =>
    refine ⟨[], by simp, Or.inl ?_⟩
    simp [GBuffer.fill, h1, hiv, clearEvent]
  | some iv =>
  cases hsg : args.server.geometry_result with
  | some e =>
    refine ⟨[], by simp, Or.inr (Or.inl ?_)⟩
    simp [GBuffer.fill, renderToFrameBuffer, h1, hiv, hsg, clearEvent]
  | none =>
  cases hvt : args.server.visibility_test_result with
  | some e =>
    refine ⟨[], by simp, Or.inr (Or.inr ?_)⟩
    simp [GBuffer.fill, renderToFrameBuffer, h1, hiv, hsg, hvt, clearEvent]
  | none =>
  cases hd : g.depth with
  | none =>
    refine ⟨[], by simp, Or.inr (Or.inr ?_)⟩
    simp [GBuffer.fill, decalPhase, renderToFrameBuffer,
      h1, hiv, hsg, hvt, hd, clearEvent]
  | some dt =>
  cases hm : g.decal_mask_texture with
  | none =>
    refine ⟨[], by simp, Or.inr (Or.inr ?_)⟩
    simp [GBuffer.fill, decalPhase, renderToFrameBuffer,
      h1, hiv, hsg, hvt, hd, hm, clearEvent]
  | some mt =>
    simp [GBuffer.fill, decalPhase, renderToFrameBuffer,
      h1, hiv, hsg, hvt, hd, hm, clearEvent]
    intro e he
    exact decalLoop_events_are_draws g args _ _ _ _ _ _
      args.graph.decals 0 _ e he

/-- C3 (amended): with occlusion culling enabled the ordering is strict
in every execution — a geometry render only after the result
consumption, a query issuance only after the geometry render, a decal
draw only after the query issuance — and in every execution that
completes without a backend error or panic, all steps are present and
every decal of the graph is composited. -/
theorem fill_occlusion_strict_order (g : GBuffer)
    (args : GBufferRenderContext)
    (h1 : args.quality_settings.use_occlusion_culling = true) :
    (∀ j, (GBuffer.fill g args).1.get? j = some FrameEvent.geometryRender →
      ∃ i, i < j ∧
        (GBuffer.fill g args).1.get? i = some FrameEvent.consumeResults) ∧
    (∀ j os, (GBuffer.fill g args).1.get? j =
        some (FrameEvent.issueQueries os) →
      ∃ i, i < j ∧
        (GBuffer.fill g args).1.get? i = some FrameEvent.geometryRender) ∧
    (∀ j c, (GBuffer.fill g args).1.get? j =
        some (FrameEvent.decalDraw c) →
      ∃ i, i < j ∧ ∃ os,
        (GBuffer.fill g args).1.get? i = some (FrameEvent.issueQueries os)) ∧
    (∀ st, (GBuffer.fill g args).2 = some (Except.ok st) →
      ∃ ic ig iq, ic < ig ∧ ig < iq ∧
        (GBuffer.fill g args).1.get? ic = some FrameEvent.consumeResults ∧
        (GBuffer.fill g args).1.get? ig = some FrameEvent.geometryRender ∧
        (GBuffer.fill g args).1.get? iq =
          some (FrameEvent.issueQueries (collectObjects args.bundle_storage)) ∧
        (decalCallsOf (GBuffer.fill g args).1).length =
          args.graph.decals.length) := by
  obtain ⟨tail, htail, hsh⟩ := fill_occl_trace_cases g args h1
  refine ⟨?_, ?_, ?_, ?_⟩
  · intro j hj
    rcases hsh with htr | htr | htr <;> rw [htr] at hj
    · rcases j with _ | _ | j
      · simp at hj
      · simp [clearEvent] at hj
      · simp at hj
    · rcases j with _ | _ | _ | j
      · simp at hj
      · simp [clearEvent] at hj
      · exact ⟨0, by omega, by rw [htr]; rfl⟩
      · simp at hj
    · rcases j with _ | _ | _ | _ | j
      · simp at hj
      · simp [clearEvent] at hj
      · exact ⟨0, by omega, by rw [htr]; rfl⟩
      · simp at hj
      · simp only [List.get?_cons_succ] at hj
        obtain ⟨c, hc⟩ := htail _ (List.get?_mem hj)
        exact FrameEvent.noConfusion hc
  · intro j os hj
    rcases hsh with htr | htr | htr <;> rw [htr] at hj
    · rcases j with _ | _ | j
      · simp at hj
      · simp [clearEvent] at hj
      · simp at hj
    · rcases j with _ | _ | _ | j
      · simp at hj
      · simp [clearEvent] at hj
      · simp at hj
      · simp at hj
    · rcases j with _ | _ | _ | _ | j
      · simp at hj
      · simp [clearEvent] at hj
      · simp at hj
      · exact ⟨2, by omega, by rw [htr]; rfl⟩
      · simp only [List.get?_cons_succ] at hj
        obtain ⟨c, hc⟩ := htail _ (List.get?_mem hj)
        exact FrameEvent.noConfusion hc
  · intro j c hj
    rcases hsh with htr | htr | htr <;> rw [htr] at hj
    · rcases j with _ | _ | j
      · simp at hj
      · simp [clearEvent] at hj
      · simp at hj
    · rcases j with _ | _ | _ | j
      · simp at hj
      · simp [clearEvent] at hj
      · simp at hj
      · simp at hj
    · rcases j with _ | _ | _ | _ | j
      · simp at hj
      · simp [clearEvent] at hj
      · simp at hj
      · simp at hj
      · exact ⟨3, by omega, collectObjects args.bundle_storage,
          by rw [htr]; rfl⟩
  · intro st hst
    obtain ⟨ic, ig, iq, hlt1, hlt2, hc, hg, hq, -⟩ :=
      fill_occlusion_ordering g args st h1 hst
    obtain ⟨dt, mt, -, -, hcalls⟩ := fill_ok_decal_calls g args st hst
    exact ⟨ic, ig, iq, hlt1, hlt2, hc, hg, hq, by rw [hcalls]; simp⟩

/-- C7: in a completed frame, every decal of the graph gets exactly one
draw call, and a decal whose diffuse (resp. normal) texture reference is
unset or not resolvable through the texture cache has the white
(resp. flat-normal) fallback texture bound instead, with no error
raised. -/
theorem decal_missing_texture_fallback (g : GBuffer)
    (args : GBufferRenderContext) (st : RenderPassStatistics)
    (h : (GBuffer.fill g args).2 = some (Except.ok st)) :
    (decalCallsOf (GBuffer.fill g args).1).length =
      args.graph.decals.length ∧
    ∀ i c d,
      (decalCallsOf (GBuffer.fill g args).1).get? i = some c →
      args.graph.decals.get? i = some d →
      ((d.diffuse_texture.bind args.texture_cache = none →
          c.diffuse_texture = args.fallback_resources.white_dummy) ∧
       (d.normal_texture.bind args.texture_cache = none →
          c.normal_texture = args.fallback_resources.normal_dummy)) := by
  obtain ⟨dt, mt, hd, hm, hcalls⟩ := fill_ok_decal_calls g args st h
  rw [hcalls]
  refine ⟨by simp, ?_⟩
  intro i c d hc hdg
  rw [List.get?_map, hdg] at hc
  obtain rfl := Option.some.inj hc
  constructor <;> intro hnone <;> simp [mkDecalCall, hnone]

/-- C8: in a completed frame, the decal draws come one per decal node in
scene iteration order, and each targets the secondary framebuffer with
the unit-cube proxy, depth write off, depth test disabled and
source-alpha/one-minus-source-alpha blending. -/
theorem decal_draw_parameters_order (g : GBuffer)
    (args : GBufferRenderContext) (st : RenderPassStatistics)
    (h : (GBuffer.fill g args).2 = some (Except.ok st)) :
    (decalCallsOf (GBuffer.fill g args).1).length =
      args.graph.decals.length ∧
    (∀ c ∈ decalCallsOf (GBuffer.fill g args).1,
      c.target = g.decal_framebuffer ∧ c.geometry = g.cube ∧
      c.params.depth_write = false ∧ c.params.depth_test = none ∧
      c.params.blend = some ⟨BlendFunc.new BlendFactor.SrcAlpha
        BlendFactor.OneMinusSrcAlpha, BlendEquation.Add⟩) ∧
    (∀ i c d, (decalCallsOf (GBuffer.fill g args).1).get? i = some c →
      args.graph.decals.get? i = some d →
      c.world_view_projection =
        args.camera.view_projection_matrix * d.global_transform ∧
      c.layer = d.layer) := by
  obtain ⟨dt, mt, hd, hm, hcalls⟩ := fill_ok_decal_calls g args st h
  rw [hcalls]
  refine ⟨by simp, ?_, ?_⟩
  · intro c hc
    obtain ⟨d, hd2, rfl⟩ := List.mem_map.mp hc
    exact ⟨rfl, rfl, rfl, rfl, rfl⟩
  · intro i c d hc hdg
    rw [List.get?_map, hdg] at hc
    obtain rfl := Option.some.inj hc
    exact ⟨rfl, rfl⟩

/-- C10: on a well-formed G-buffer (depth and decal-mask attachments
present), `fill` panics exactly when the camera's view matrix is not
invertible; a non-invertible view-projection matrix or decal transform
never panics — the decal uniforms get the all-zero default matrix from
`unwrap_or_default` instead. -/
theorem fill_panic_iff_singular_view (g : GBuffer)
    (args : GBufferRenderContext)
    (h1 : g.depth.isSome = true) (h2 : g.decal_mask_texture.isSome = true) :
    ((GBuffer.fill g args).2 = none ↔ args.camera.inv_view_matrix = none) ∧
    (args.camera.view_projection_matrix.tryInverse = none →
      ∀ c ∈ decalCallsOf (GBuffer.fill g args).1,
        c.inv_view_projection = Matrix4.zero) ∧
    (∀ i c d, (decalCallsOf (GBuffer.fill g args).1).get? i = some c →
      args.graph.decals.get? i = some d →
      d.global_transform.tryInverse = none →
      c.inv_decal_transform = Matrix4.zero) := by
  obtain ⟨dtx, hdx⟩ := Option.isSome_iff_exists.mp h1
  obtain ⟨mtx, hmx⟩ := Option.isSome_iff_exists.mp h2
  refine ⟨?_, ?_, ?_⟩
  · cases hiv : args.camera.inv_view_matrix with
    | none =>
      simp only [iff_true]
      cases hocc : args.quality_settings.use_occlusion_culling <;>
        simp [GBuffer.fill, hocc, hiv]
    | some iv =>
      simp only [iff_false, reduceCtorEq]
      intro hnone
      cases hocc : args.quality_settings.use_occlusion_culling <;>
      cases hsg : args.server.geometry_result <;>
      cases hvt : args.server.visibility_test_result <;>
      simp [GBuffer.fill, decalPhase, renderToFrameBuffer,
        hocc, hiv, hsg, hvt, hdx, hmx] at hnone <;>
      exact decalLoop_outcome_ne_none _ _ _ _ _ _ _ _ _ _ _ hnone
  · intro hvp c hc
    obtain ⟨i, hi⟩ := List.get?_of_mem hc
    obtain ⟨d, dt, mt, hdg, hd, hm, rfl⟩ := fill_decal_call_pairs g args i c hi
    simp [mkDecalCall, hvp]
  · intro i c d hc hdg hsing
    obtain ⟨d2, dt, mt, hdg2, hd, hm, rfl⟩ := fill_decal_call_pairs g args i c hc
    rw [hdg] at hdg2
    obtain rfl := Option.some.inj hdg2
    simp [mkDecalCall, hsing]

/-! ## Concrete counterexample and witnesses

The rational-number operations of Batteries are `@[irreducible]`, which
blocks `decide`-style evaluation of concrete frames; within this section
they are restored to their definitional behavior so the fixtures can be
evaluated. -/

section

attribute [local semireducible] Rat.add Rat.mul Rat.sub Rat.inv

/-- C1 counterexample: at a concrete frame whose geometry-pass batch
fails, `fill` returns the error and the trace contains no decal draw at
all, although the scene holds one decal — contradicting the claim that
decal compositing still runs over all decal nodes after a geometry
failure. -/
theorem fill_geom_error_cex :
    (GBuffer.fill testGBuffer geomFailContext).2 =
      some (Except.error (FrameworkError.custom "draw failed")) ∧
    decalCallsOf (GBuffer.fill testGBuffer geomFailContext).1 = [] ∧
    geomFailContext.graph.decals.length = 1 := by
  refine ⟨by decide, by decide, by decide⟩

/-- Witness for C1 (amended) at the concrete failing frame. -/
theorem fill_geom_error_aborts_witness :
    GBuffer.fill testGBuffer geomFailContext =
      ((if geomFailContext.quality_settings.use_occlusion_culling then
          [FrameEvent.consumeResults] else []) ++
        [clearEvent testGBuffer, FrameEvent.geometryRender],
       some (Except.error (FrameworkError.custom "draw failed"))) ∧
    decalCallsOf (GBuffer.fill testGBuffer geomFailContext).1 = [] :=
  fill_geom_error_aborts testGBuffer geomFailContext
    (FrameworkError.custom "draw failed") Matrix4.identity rfl (by decide)

/-- C3 counterexample: with occlusion culling enabled and the
geometry-pass batch failing, `fill`'s trace stops at the geometry
render — no visibility queries are issued and no decal is composited,
although the scene holds one decal — so the claim's "none is skipped"
fails on aborted executions. -/
theorem fill_occlusion_ordering_cex :
    geomFailOcclContext.quality_settings.use_occlusion_culling = true ∧
    (GBuffer.fill testGBuffer geomFailOcclContext).1 =
      [FrameEvent.consumeResults, clearEvent testGBuffer,
       FrameEvent.geometryRender] ∧
    (GBuffer.fill testGBuffer geomFailOcclContext).2 =
      some (Except.error (FrameworkError.custom "draw failed")) ∧
    geomFailOcclContext.graph.decals.length = 1 := by
  refine ⟨by decide, by decide, by decide, by decide⟩

/-- Witness for C3 (amended) at a concrete occlusion-enabled frame. -/
theorem fill_occlusion_strict_order_witness :
    (∀ j, (GBuffer.fill testGBuffer (testContext true)).1.get? j =
        some FrameEvent.geometryRender →
      ∃ i, i < j ∧
        (GBuffer.fill testGBuffer (testContext true)).1.get? i =
          some FrameEvent.consumeResults) ∧
    (∀ j os, (GBuffer.fill testGBuffer (testContext true)).1.get? j =
        some (FrameEvent.issueQueries os) →
      ∃ i, i < j ∧
        (GBuffer.fill testGBuffer (testContext true)).1.get? i =
          some FrameEvent.geometryRender) ∧
    (∀ j c, (GBuffer.fill testGBuffer (testContext true)).1.get? j =
        some (FrameEvent.decalDraw c) →
      ∃ i, i < j ∧ ∃ os,
        (GBuffer.fill testGBuffer (testContext true)).1.get? i =
          some (FrameEvent.issueQueries os)) ∧
    (∀ st, (GBuffer.fill testGBuffer (testContext true)).2 =
        some (Except.ok st) →
      ∃ ic ig iq, ic < ig ∧ ig < iq ∧
        (GBuffer.fill testGBuffer (testContext true)).1.get? ic =
          some FrameEvent.consumeResults ∧
        (GBuffer.fill testGBuffer (testContext true)).1.get? ig =
          some FrameEvent.geometryRender ∧
        (GBuffer.fill testGBuffer (testContext true)).1.get? iq =
          some (FrameEvent.issueQueries
            (collectObjects (testContext true).bundle_storage)) ∧
        (decalCallsOf (GBuffer.fill testGBuffer (testContext true)).1).length =
          (testContext true).graph.decals.length) :=
  fill_occlusion_strict_order testGBuffer (testContext true) rfl

/-- Witness for C4 at a concrete frame. -/
theorem fill_clears_before_geometry_witness :
    ∃ i, (GBuffer.fill testGBuffer (testContext false)).1.get? i =
        some (clearEvent testGBuffer) ∧
      ∀ j, (GBuffer.fill testGBuffer (testContext false)).1.get? j =
        some FrameEvent.geometryRender → i < j :=
  fill_clears_before_geometry testGBuffer (testContext false)

/-- Witness for C7: the fixture decal has no diffuse and no normal
texture, and the frame completes with its draw bound to the fallbacks. -/
theorem decal_missing_texture_fallback_witness :
    (decalCallsOf (GBuffer.fill testGBuffer (testContext false)).1).length =
      (testContext false).graph.decals.length ∧
    ∀ i c d,
      (decalCallsOf
        (GBuffer.fill testGBuffer (testContext false)).1).get? i = some c →
      (testContext false).graph.decals.get? i = some d →
      ((d.diffuse_texture.bind (testContext false).texture_cache = none →
          c.diffuse_texture = (testContext false).fallback_resources.white_dummy) ∧
       (d.normal_texture.bind (testContext false).texture_cache = none →
          c.normal_texture = (testContext false).fallback_resources.normal_dummy)) :=
  decal_missing_texture_fallback testGBuffer (testContext false) ⟨2⟩ (by decide)

/-- Witness for C8 at a concrete completed frame with one decal. -/
theorem decal_draw_parameters_order_witness :
    (decalCallsOf (GBuffer.fill testGBuffer (testContext false)).1).length =
      (testContext false).graph.decals.length ∧
    (∀ c ∈ decalCallsOf (GBuffer.fill testGBuffer (testContext false)).1,
      c.target = testGBuffer.decal_framebuffer ∧
      c.geometry = testGBuffer.cube ∧
      c.params.depth_write = false ∧ c.params.depth_test = none ∧
      c.params.blend = some ⟨BlendFunc.new BlendFactor.SrcAlpha
        BlendFactor.OneMinusSrcAlpha, BlendEquation.Add⟩) ∧
    (∀ i c d,
      (decalCallsOf
        (GBuffer.fill testGBuffer (testContext false)).1).get? i = some c →
      (testContext false).graph.decals.get? i = some d →
      c.world_view_projection =
        (testContext false).camera.view_projection_matrix *
          d.global_transform ∧
      c.layer = d.layer) :=
  decal_draw_parameters_order testGBuffer (testContext false) ⟨2⟩ (by decide)

/-- Witness for C10 at a concrete frame whose camera view matrix is
singular: the hypotheses hold of the fixture G-buffer by evaluation. -/
theorem fill_panic_iff_singular_view_witness :
    ((GBuffer.fill testGBuffer singularContext).2 = none ↔
      singularContext.camera.inv_view_matrix = none) ∧
    (singularContext.camera.view_projection_matrix.tryInverse = none →
      ∀ c ∈ decalCallsOf (GBuffer.fill testGBuffer singularContext).1,
        c.inv_view_projection = Matrix4.zero) ∧
    (∀ i c d,
      (decalCallsOf
        (GBuffer.fill testGBuffer singularContext).1).get? i = some c →
      singularContext.graph.decals.get? i = some d →
      d.global_transform.tryInverse = none →
      c.inv_decal_transform = Matrix4.zero) :=
  fill_panic_iff_singular_view testGBuffer singularContext
    (by decide) (by decide)

end

end Fyrox
